import Mathlib

/-!
Shallow embedding of the hmse_projects storage layer.

The embedding covers:
  - the in-memory project metadata record and its mutating operations
    (project_metadata.py),
  - the service orchestration layer (project_service.py), modelled as
    functions from the persisted metadata record to the list of artifact
    store operations performed plus the metadata record that is finally
    persisted (or the exception that escapes),
  - the polygon coordinate scaler (polygon_scaler.py), with Python floats
    modelled as rationals and the numpy float-to-int cast modelled as
    truncation toward zero.

Python dicts are modelled as insertion-ordered association lists with
unique keys; Python sets as lists with set-style membership-guarded
operations.  Exceptions are modelled with Except: a raised exception
discards the in-memory record, which is faithful at the persistence
level because the service layer never saves metadata after a metadata
operation has raised.
-/

namespace HmseProjects

instance {ε α : Type _} [DecidableEq ε] [DecidableEq α] :
    DecidableEq (Except ε α) := fun x y =>
  match x, y with
  | .ok a, .ok b =>
      if h : a = b then isTrue (by rw [h])
      else isFalse (fun hc => by cases hc; exact h rfl)
  | .error a, .error b =>
      if h : a = b then isTrue (by rw [h])
      else isFalse (fun hc => by cases hc; exact h rfl)
  | .ok _, .error _ => isFalse (fun hc => by cases hc)
  | .error _, .ok _ => isFalse (fun hc => by cases hc)

abbrev ProjectID := String
abbrev HydrusID := String
abbrev WeatherID := String
abbrev ShapeID := String
abbrev ShapeColor := String

/-- A binary raster mask (one flag per grid cell). -/
abbrev Mask := List (List Bool)

section PyDict

variable {α : Type _} {β : Type _} [DecidableEq α]

/-- Python `k in d` for a dict modelled as an association list. -/
def dictContains (d : List (α × β)) (k : α) : Bool :=
  (d.find? (fun p => p.1 = k)).isSome

/-- Python `d[k] = v`: replace in place if the key is present (preserving
its position, as CPython dicts do), otherwise append. -/
def dictSet (d : List (α × β)) (k : α) (v : β) : List (α × β) :=
  if dictContains d k then
    d.map (fun p => if p.1 = k then (k, v) else p)
  else
    d ++ [(k, v)]

/-- Python `del d[k]` on a present key (callers guard presence). -/
def dictDelete (d : List (α × β)) (k : α) : List (α × β) :=
  d.filter (fun p => p.1 ≠ k)

/-- Python `d.get(k)` / lookup. -/
def dictGet (d : List (α × β)) (k : α) : Option β :=
  (d.find? (fun p => p.1 = k)).map Prod.snd

end PyDict

/-- simulation_mode.py: the coupling mode enumeration. -/
inductive SimulationMode
  | simpleCoupling
  | withFeedback
  deriving DecidableEq

/-- External ModflowMetadata record (hmse_hydrological_models, outside
this repository); only the identifier is relevant to the specified
operations. -/
structure ModflowMetadata where
  modflow_id : String
  deriving DecidableEq

/-- The tagged value of the shape-to-soil-model mapping:
`Union[HydrusID, float]` in the source.  A Python float manual value is
modelled as a rational. -/
inductive MappingValue
  | hydrusId (h : HydrusID)
  | manualValue (v : Rat)
  deriving DecidableEq

/-- project_metadata.py: ProjectMetadata dataclass.  Sets are modelled as
lists with set-discipline operations; dicts as insertion-ordered
association lists; floats (lat/long) as rationals. -/
structure ProjectMetadata where
  project_id : ProjectID
  project_name : String
  finished : Bool := false
  lat : Option Rat := none
  long : Option Rat := none
  start_date : Option String := none
  spin_up : Int := 0
  modflow_metadata : Option ModflowMetadata := none
  hydrus_models : List HydrusID := []
  weather_files : List WeatherID := []
  shapes : List (ShapeID × ShapeColor) := []
  hydrus_durations : List (HydrusID × Int) := []
  weather_files_durations : List (WeatherID × Int) := []
  shapes_to_hydrus : List (ShapeID × MappingValue) := []
  hydrus_to_weather : List (HydrusID × WeatherID) := []
  simulation_mode : SimulationMode := SimulationMode.simpleCoupling
  deriving DecidableEq

/-- The exceptions that can escape the embedded operations.  The first
five are the domain errors of project_exceptions.py; the last three are
ordinary Python exceptions escaping buggy code paths. -/
inductive ProjectError
  | unknownShape
  | unknownHydrusModel
  | unknownWeatherFile
  | duplicateHydrusModel
  | duplicateWeatherFile
  | valueError
  | runtimeError
  | attributeError
  deriving DecidableEq

namespace ProjectMetadata

/-- project_metadata.py `contains_hydrus_model`. -/
def contains_hydrus_model (m : ProjectMetadata) (hydrus_id : HydrusID) : Bool :=
  hydrus_id ∈ m.hydrus_models

/-- project_metadata.py `contains_weather_model`. -/
def contains_weather_model (m : ProjectMetadata) (weather_id : WeatherID) : Bool :=
  weather_id ∈ m.weather_files

/-- project_metadata.py `contains_shape`. -/
def contains_shape (m : ProjectMetadata) (shape_id : ShapeID) : Bool :=
  dictContains m.shapes shape_id

/-- project_metadata.py `set_modflow_metadata`. -/
def set_modflow_metadata (m : ProjectMetadata) (md : ModflowMetadata) : ProjectMetadata :=
  { m with modflow_metadata := some md }

/-- project_metadata.py `remove_modflow_metadata`. -/
def remove_modflow_metadata (m : ProjectMetadata) : ProjectMetadata :=
  { m with modflow_metadata := none }

/-- project_metadata.py `add_hydrus_model`: `if hydrus_id not in
self.hydrus_models: add` else raise DuplicateHydrusModel. -/
def add_hydrus_model (m : ProjectMetadata) (hydrus_id : HydrusID) :
    Except ProjectError ProjectMetadata :=
  if hydrus_id ∉ m.hydrus_models then
    .ok { m with hydrus_models := m.hydrus_models ++ [hydrus_id] }
  else
    .error .duplicateHydrusModel

/-- project_metadata.py `remove_hydrus_model`: `self.hydrus_models.remove`
raises KeyError when absent, turned into UnknownHydrusModel.  Note: no
purge of shapes_to_hydrus or hydrus_to_weather happens here. -/
def remove_hydrus_model (m : ProjectMetadata) (hydrus_id : HydrusID) :
    Except ProjectError ProjectMetadata :=
  if hydrus_id ∈ m.hydrus_models then
    .ok { m with hydrus_models := m.hydrus_models.erase hydrus_id }
  else
    .error .unknownHydrusModel

/-- project_metadata.py `add_weather_file`. -/
def add_weather_file (m : ProjectMetadata) (weather_file_id : WeatherID) :
    Except ProjectError ProjectMetadata :=
  if weather_file_id ∉ m.weather_files then
    .ok { m with weather_files := m.weather_files ++ [weather_file_id] }
  else
    .error .duplicateWeatherFile

/-- The purge loop of project_metadata.py `remove_weather_file`:

  `for hydrus_id, weather_id in self.hydrus_to_weather:` iterates over
  the KEYS of the dict (a missing `.items()`), so each key string is
  unpacked into two names.  Per CPython semantics:
  - a key whose length is not 2 raises ValueError (uncaught by the
    surrounding `except KeyError`);
  - a key "ab" is unpacked into the one-character strings "a" and "b";
    when "b" equals the weather file id being removed, the code executes
    `del self.hydrus_to_weather["a"]`: if "a" is a present key the
    deletion succeeds and the next iterator step raises RuntimeError
    (dictionary changed size during iteration, raised even on the final
    exhausting step); if "a" is absent the del raises KeyError, which IS
    caught and re-raised as UnknownWeatherFile.
  Because every deletion attempt ends in an exception, a run that
  completes leaves the dict unchanged. -/
def hydrusWeatherPurge (d : List (HydrusID × WeatherID)) (w : WeatherID) :
    List HydrusID → Except ProjectError Unit
  | [] => .ok ()
  | k :: rest =>
      match k.toList with
      | [a, b] =>
          if String.singleton b = w then
            if dictContains d (String.singleton a) then .error .runtimeError
            else .error .unknownWeatherFile
          else hydrusWeatherPurge d w rest
      | _ => .error .valueError

/-- project_metadata.py `remove_weather_file`: removes the id from the
weather file set (KeyError when absent becomes UnknownWeatherFile), then
runs the buggy purge loop over `hydrus_to_weather`. -/
def remove_weather_file (m : ProjectMetadata) (weather_file_id : WeatherID) :
    Except ProjectError ProjectMetadata :=
  if weather_file_id ∈ m.weather_files then
    match hydrusWeatherPurge m.hydrus_to_weather weather_file_id
        (m.hydrus_to_weather.map Prod.fst) with
    | .ok _ => .ok { m with weather_files := m.weather_files.erase weather_file_id }
    | .error e => .error e
  else
    .error .unknownWeatherFile

/-- project_metadata.py `add_shape_metadata`: a plain dict assignment,
total (never raises), overwriting any existing entry. -/
def add_shape_metadata (m : ProjectMetadata) (shape_id : ShapeID)
    (shape_color : ShapeColor) : ProjectMetadata :=
  { m with shapes := dictSet m.shapes shape_id shape_color }

/-- project_metadata.py `remove_shape_metadata`: `del self.shapes[...]`
(KeyError becomes UnknownShape) then conditional delete of the
shapes_to_hydrus entry. -/
def remove_shape_metadata (m : ProjectMetadata) (shape_id : ShapeID) :
    Except ProjectError ProjectMetadata :=
  if dictContains m.shapes shape_id then
    .ok { m with
          shapes := dictDelete m.shapes shape_id,
          shapes_to_hydrus := dictDelete m.shapes_to_hydrus shape_id }
  else
    .error .unknownShape

/-- project_metadata.py `map_shape_to_hydrus`. -/
def map_shape_to_hydrus (m : ProjectMetadata) (shape_id : ShapeID)
    (hydrus_id : HydrusID) : Except ProjectError ProjectMetadata :=
  if ¬ m.contains_shape shape_id then
    .error .unknownShape
  else if ¬ m.contains_hydrus_model hydrus_id then
    .error .unknownHydrusModel
  else
    .ok { m with shapes_to_hydrus :=
            dictSet m.shapes_to_hydrus shape_id (MappingValue.hydrusId hydrus_id) }

/-- project_metadata.py `map_shape_to_manual_value`. -/
def map_shape_to_manual_value (m : ProjectMetadata) (shape_id : ShapeID)
    (value : Rat) : Except ProjectError ProjectMetadata :=
  if ¬ m.contains_shape shape_id then
    .error .unknownShape
  else
    .ok { m with shapes_to_hydrus :=
            dictSet m.shapes_to_hydrus shape_id (MappingValue.manualValue value) }

/-- project_metadata.py `map_hydrus_to_weather`. -/
def map_hydrus_to_weather (m : ProjectMetadata) (hydrus_id : HydrusID)
    (weather_id : WeatherID) : Except ProjectError ProjectMetadata :=
  if ¬ m.contains_hydrus_model hydrus_id then
    .error .unknownHydrusModel
  else if ¬ m.contains_weather_model weather_id then
    .error .unknownWeatherFile
  else
    .ok { m with hydrus_to_weather := dictSet m.hydrus_to_weather hydrus_id weather_id }

/-- project_metadata.py `remove_shape_mapping`. -/
def remove_shape_mapping (m : ProjectMetadata) (shape_id : ShapeID) :
    Except ProjectError ProjectMetadata :=
  if ¬ m.contains_shape shape_id then
    .error .unknownShape
  else
    .ok { m with shapes_to_hydrus := dictDelete m.shapes_to_hydrus shape_id }

/-- project_metadata.py `remove_hydrus_weather_mapping`. -/
def remove_hydrus_weather_mapping (m : ProjectMetadata) (hydrus_id : HydrusID) :
    Except ProjectError ProjectMetadata :=
  if ¬ m.contains_hydrus_model hydrus_id then
    .error .unknownHydrusModel
  else
    .ok { m with hydrus_to_weather := dictDelete m.hydrus_to_weather hydrus_id }

end ProjectMetadata

/-- The artifact store operations performed by project_dao.py, recorded
as an abstract event so that the service layer can be stated as "which
store mutations happened, in which order". -/
inductive StoreOp
  | addHydrusModelFiles (hydrus_id : HydrusID)
  | deleteHydrusModelFiles (hydrus_id : HydrusID)
  | addModflowModelFiles (modflow_id : String)
  | deleteModflowModelFiles (modflow_id : String)
  | addWeatherFileBlob (weather_id : WeatherID)
  | deleteWeatherFileBlob (weather_id : WeatherID)
  | saveShapeMask (shape_id : ShapeID) (mask : Mask)
  | deleteShapeMask (shape_id : ShapeID)
  | saveRchShapeMask (shape_id : ShapeID) (mask : Mask)
  | saveMetadata (m : ProjectMetadata)
  deriving DecidableEq

namespace ProjectService

open ProjectMetadata

/-- The outcome of one service call: the store operations performed (in
order) and either the metadata record it leaves persisted or the
exception that escaped. -/
abbrev SvcResult := List StoreOp × Except ProjectError ProjectMetadata

/-- project_service.py `add_hydrus_model`: after external validation the
dao stores the model files FIRST, then the metadata duplicate check runs,
then the metadata is saved.  `m` is the record returned by
`project_dao.read_metadata`. -/
def svc_add_hydrus_model (m : ProjectMetadata) (hydrus_id : HydrusID) : SvcResult :=
  match m.add_hydrus_model hydrus_id with
  | .ok m1 => ([.addHydrusModelFiles hydrus_id, .saveMetadata m1], .ok m1)
  | .error e => ([.addHydrusModelFiles hydrus_id], .error e)

/-- project_service.py `delete_hydrus_model`: metadata removal (which may
raise UnknownHydrusModel) precedes the dao deletion. -/
def svc_delete_hydrus_model (m : ProjectMetadata) (hydrus_id : HydrusID) : SvcResult :=
  match m.remove_hydrus_model hydrus_id with
  | .ok m1 => ([.deleteHydrusModelFiles hydrus_id, .saveMetadata m1], .ok m1)
  | .error e => ([], .error e)

/-- project_service.py `add_weather_file`: metadata duplicate check
precedes the dao write. -/
def svc_add_weather_file (m : ProjectMetadata) (weather_id : WeatherID) : SvcResult :=
  match m.add_weather_file weather_id with
  | .ok m1 => ([.addWeatherFileBlob weather_id, .saveMetadata m1], .ok m1)
  | .error e => ([], .error e)

/-- project_service.py `delete_weather_file`. -/
def svc_delete_weather_file (m : ProjectMetadata) (weather_id : WeatherID) : SvcResult :=
  match m.remove_weather_file weather_id with
  | .ok m1 => ([.deleteWeatherFileBlob weather_id, .saveMetadata m1], .ok m1)
  | .error e => ([], .error e)

/-- project_service.py `delete_shape`. -/
def svc_delete_shape (m : ProjectMetadata) (shape_id : ShapeID) : SvcResult :=
  match m.remove_shape_metadata shape_id with
  | .ok m1 => ([.deleteShapeMask shape_id, .saveMetadata m1], .ok m1)
  | .error e => ([], .error e)

/-- project_service.py `map_shape_to_hydrus`. -/
def svc_map_shape_to_hydrus (m : ProjectMetadata) (shape_id : ShapeID)
    (hydrus_id : HydrusID) : SvcResult :=
  match m.map_shape_to_hydrus shape_id hydrus_id with
  | .ok m1 => ([.saveMetadata m1], .ok m1)
  | .error e => ([], .error e)

/-- project_service.py `map_shape_to_manual_value`. -/
def svc_map_shape_to_manual_value (m : ProjectMetadata) (shape_id : ShapeID)
    (value : Rat) : SvcResult :=
  match m.map_shape_to_manual_value shape_id value with
  | .ok m1 => ([.saveMetadata m1], .ok m1)
  | .error e => ([], .error e)

/-- project_service.py `map_hydrus_to_weather_file`. -/
def svc_map_hydrus_to_weather_file (m : ProjectMetadata) (hydrus_id : HydrusID)
    (weather_id : WeatherID) : SvcResult :=
  match m.map_hydrus_to_weather hydrus_id weather_id with
  | .ok m1 => ([.saveMetadata m1], .ok m1)
  | .error e => ([], .error e)

/-- project_service.py `remove_shape_mapping`. -/
def svc_remove_shape_mapping (m : ProjectMetadata) (shape_id : ShapeID) : SvcResult :=
  match m.remove_shape_mapping shape_id with
  | .ok m1 => ([.saveMetadata m1], .ok m1)
  | .error e => ([], .error e)

/-- project_service.py `remove_weather_hydrus_mapping`. -/
def svc_remove_weather_hydrus_mapping (m : ProjectMetadata)
    (hydrus_id : HydrusID) : SvcResult :=
  match m.remove_hydrus_weather_mapping hydrus_id with
  | .ok m1 => ([.saveMetadata m1], .ok m1)
  | .error e => ([], .error e)

/-- The tail of the rename branch of project_service.py
`save_or_update_shape`: after the mapping has been carried to the new id,
`remove_shape_mapping(shape_id)` then `remove_shape_metadata(shape_id)`. -/
def renameCleanup (m : ProjectMetadata) (shape_id : ShapeID) :
    Except ProjectError ProjectMetadata :=
  match m.remove_shape_mapping shape_id with
  | .error e => .error e
  | .ok m1 => m1.remove_shape_metadata shape_id

/-- project_service.py `save_or_update_shape(project_id, shape_id, color,
new_shape_id)`.  In the rename branch the dao mask under the old id is
deleted first; then any existing mapping of the OLD id is re-applied to
the NEW id via the checked mappers (`map_shape_to_manual_value` when the
stored value is a float, `map_shape_to_hydrus` otherwise) BEFORE the new
shape metadata exists; then the old mapping and old metadata entry are
removed.  In all paths `add_shape_metadata(new_shape_id, color)` then a
metadata save follow.  The dao write of the mask under the new id is
commented out in the source, so no such store operation occurs. -/
def svc_save_or_update_shape (m : ProjectMetadata) (shape_id : ShapeID)
    (color : ShapeColor) (new_shape_id : ShapeID) : SvcResult :=
  let renamed : SvcResult :=
    if m.contains_shape shape_id = true ∧ shape_id ≠ new_shape_id then
      let ops := [StoreOp.deleteShapeMask shape_id]
      match dictGet m.shapes_to_hydrus shape_id with
      | some (MappingValue.manualValue v) =>
          match m.map_shape_to_manual_value new_shape_id v with
          | .error e => (ops, .error e)
          | .ok m1 => (ops, renameCleanup m1 shape_id)
      | some (MappingValue.hydrusId h) =>
          match m.map_shape_to_hydrus new_shape_id h with
          | .error e => (ops, .error e)
          | .ok m1 => (ops, renameCleanup m1 shape_id)
      | none => (ops, m.remove_shape_metadata shape_id)
    else ([], .ok m)
  match renamed with
  | (ops, .error e) => (ops, .error e)
  | (ops, .ok m1) =>
      let m2 := m1.add_shape_metadata new_shape_id color
      (ops ++ [StoreOp.saveMetadata m2], .ok m2)

/-- project_dao.py `add_modflow_rch_shapes`: each recharge mask is saved
under the recharge namespace with id `rch_shape_<i+1>` in list order. -/
def add_modflow_rch_shapes (rch_shapes : List Mask) : List StoreOp :=
  rch_shapes.enum.map
    (fun p => StoreOp.saveRchShapeMask ("rch_shape_" ++ toString (p.1 + 1)) p.2)

/-- project_service.py `set_modflow_model`.  The external
`modflow_utils.extract_metadata` is a collaborator outside this
repository; its results (the parsed metadata, the start date, the
recharge masks and the inactive-cells mask) are taken as parameters. -/
def svc_set_modflow_model (m : ProjectMetadata) (modflow_id : String)
    (model_metadata : ModflowMetadata) (start_date : String)
    (rch_shapes : List Mask) (inactive_cells_shape : Mask) : SvcResult :=
  let ops0 : List StoreOp :=
    match m.modflow_metadata with
    | some old => [.deleteModflowModelFiles old.modflow_id]
    | none => []
  let m1 := m.set_modflow_metadata model_metadata
  let inactive_shape_id := "inactive_modflow_cells"
  let inactive_shape_color := "#999999"
  let m2 := m1.add_shape_metadata inactive_shape_id inactive_shape_color
  let m3 := { m2 with start_date := some start_date }
  (ops0 ++ [.addModflowModelFiles modflow_id,
            .saveShapeMask inactive_shape_id inactive_cells_shape,
            .saveMetadata m3]
        ++ add_modflow_rch_shapes rch_shapes,
   .ok m3)

/-- The loop of project_service.py `wipe_all_shapes`: over a snapshot of
the shape ids, dao-delete the mask then remove the metadata entry (which
also drops the shapes_to_hydrus entry). -/
def wipeLoop (m : ProjectMetadata) (ops : List StoreOp) :
    List ShapeID → SvcResult
  | [] => (ops ++ [.saveMetadata m], .ok m)
  | s :: rest =>
      let ops1 := ops ++ [StoreOp.deleteShapeMask s]
      match m.remove_shape_metadata s with
      | .error e => (ops1, .error e)
      | .ok m1 => wipeLoop m1 ops1 rest

/-- project_service.py `wipe_all_shapes`. -/
def svc_wipe_all_shapes (m : ProjectMetadata) : SvcResult :=
  wipeLoop m [] (m.shapes.map Prod.fst)

/-- project_service.py `delete_modflow_model`.  Reading
`metadata.modflow_metadata.modflow_id` raises AttributeError when no
groundwater model is set.  Otherwise the local copy has its modflow
reference cleared (an unobservable in-memory change) and
`wipe_all_shapes` runs against the persisted record, deleting every
shape mask and saving the wiped record.  The next statement calls
`project_dao.delete_rch_shapes`, a method ProjectDao does not define, so
the attribute lookup raises AttributeError there: the remaining steps
(resetting the maps on the local copy, deleting the modflow artifacts,
saving the final record) are never reached. -/
def svc_delete_modflow_model (m : ProjectMetadata) : SvcResult :=
  match m.modflow_metadata with
  | none => ([], .error .attributeError)
  | some _ =>
      match svc_wipe_all_shapes m with
      | (wipeOps, .error e) => (wipeOps, .error e)
      | (wipeOps, .ok _) => (wipeOps, .error .attributeError)

end ProjectService

/-- Truncation toward zero of a rational, the behaviour of numpy float
to int conversion. -/
def truncToInt (q : Rat) : Int :=
  q.num / (q.den : Int)

/-- polygon_scaler.py `scale_polygon`.  `grid_width` and `grid_height`
come from the application configuration; `original_shape` is the numpy
shape of the mask, i.e. `(rows H, cols W)`; each polygon vertex is an
`(x, y)` pair with x in column 0 and y in column 1.  The source computes
`width_scale = grid_width / original_shape[0]` and `height_scale =
grid_height / original_shape[1]`, multiplies column 0 by `height_scale`
and column 1 by `width_scale`, and the assignment back into the integer
array truncates each coordinate toward zero. -/
def scale_polygon (grid_width grid_height : Rat) (original_shape : Nat × Nat)
    (polygon_arr : List (Int × Int)) : List (Int × Int) :=
  let width_scale := grid_width / (original_shape.1 : Rat)
  let height_scale := grid_height / (original_shape.2 : Rat)
  polygon_arr.map
    (fun p => (truncToInt ((p.1 : Rat) * height_scale),
               truncToInt ((p.2 : Rat) * width_scale)))

/-- Modelled from the spec: the scaling formula stated in the
specification, for comparison with `scale_polygon`.  For a mask of shape
`(H, W)`, a vertex `(x, y)` maps to `x * gridWidth / W` and
`y * gridHeight / H`, truncated to integers. -/
def scale_polygon_spec_formula (grid_width grid_height : Rat)
    (original_shape : Nat × Nat) (polygon_arr : List (Int × Int)) :
    List (Int × Int) :=
  polygon_arr.map
    (fun p => (truncToInt ((p.1 : Rat) * grid_width / (original_shape.2 : Rat)),
               truncToInt ((p.2 : Rat) * grid_height / (original_shape.1 : Rat))))

/-! Concrete metadata records used to exercise the operations. -/

/-- The scenario of the specification: soil model "loam" mapped to
weather file "wx1". -/
def c1_scenario_metadata : ProjectMetadata :=
  { project_id := "demo", project_name := "demo",
    hydrus_models := ["loam"], weather_files := ["wx1"],
    hydrus_to_weather := [("loam", "wx1")] }

/-- A record whose soil-model-to-weather key has exactly two characters,
so the buggy purge loop unpacks it without raising. -/
def c1_twochar_metadata : ProjectMetadata :=
  { project_id := "demo", project_name := "demo",
    hydrus_models := ["ab"], weather_files := ["w"],
    hydrus_to_weather := [("ab", "w")] }

def c2_metadata : ProjectMetadata :=
  { project_id := "p", project_name := "p",
    hydrus_models := ["h"], weather_files := ["w"],
    shapes := [("s", "#ffffff")],
    shapes_to_hydrus := [("s", MappingValue.hydrusId "h")],
    hydrus_to_weather := [("h", "w")] }

def c3_metadata : ProjectMetadata :=
  { project_id := "p", project_name := "p",
    hydrus_models := ["h"], weather_files := ["w"] }

def c5_metadata : ProjectMetadata :=
  { project_id := "p", project_name := "p",
    hydrus_models := ["h1"],
    shapes := [("s1", "#ffffff")],
    shapes_to_hydrus := [("s1", MappingValue.hydrusId "h1")] }

/-- Like `c5_metadata` but with no mapping for the shape, so the rename
branch completes. -/
def c5_unmapped_metadata : ProjectMetadata :=
  { project_id := "p", project_name := "p",
    shapes := [("s1", "#ffffff")] }

def c6_metadata : ProjectMetadata :=
  { project_id := "p", project_name := "p",
    hydrus_models := ["h1"],
    shapes := [("s1", "#ffffff")],
    shapes_to_hydrus := [("s1", MappingValue.manualValue 7)] }

def c8_metadata : ProjectMetadata :=
  { project_id := "demo", project_name := "demo" }

def c9_metadata : ProjectMetadata :=
  { project_id := "p", project_name := "p",
    hydrus_models := ["h"], weather_files := ["w"],
    shapes := [("s", "#aaaaaa")] }

def c10_metadata : ProjectMetadata :=
  { project_id := "p", project_name := "p",
    modflow_metadata := some { modflow_id := "mf" },
    hydrus_models := ["h"],
    shapes := [("user_shape", "#123456"), ("inactive_modflow_cells", "#999999")],
    shapes_to_hydrus := [("user_shape", MappingValue.hydrusId "h")] }

/-! Association-list lemmas for the dictionary model. -/

section PyDictLemmas

variable {α : Type _} {β : Type _} [DecidableEq α]

theorem dictGet_cons (p : α × β) (d : List (α × β)) (k : α) :
    dictGet (p :: d) k = if p.1 = k then some p.2 else dictGet d k := by
  by_cases h : p.1 = k <;> simp [dictGet, List.find?, h]

theorem dictContains_cons (p : α × β) (d : List (α × β)) (k : α) :
    dictContains (p :: d) k = (decide (p.1 = k) || dictContains d k) := by
  by_cases h : p.1 = k <;> simp [dictContains, List.find?, h]

theorem dictDelete_cons (p : α × β) (d : List (α × β)) (k : α) :
    dictDelete (p :: d) k =
      if p.1 = k then dictDelete d k else p :: dictDelete d k := by
  by_cases h : p.1 = k <;> simp [dictDelete, List.filter, h]

theorem dictGet_map_overwrite (d : List (α × β)) (k : α) (v : β)
    (h : dictContains d k = true) :
    dictGet (d.map (fun p => if p.1 = k then (k, v) else p)) k = some v := by
  induction d with
  | nil => simp [dictContains] at h
  | cons p d ih =>
      by_cases hp : p.1 = k
      · simp [hp, dictGet_cons]
      · rw [List.map_cons, if_neg hp, dictGet_cons, if_neg hp]
        apply ih
        simpa [dictContains_cons, hp] using h

theorem dictGet_append_absent (d : List (α × β)) (k : α) (v : β)
    (h : dictContains d k = false) :
    dictGet (d ++ [(k, v)]) k = some v := by
  induction d with
  | nil => simp [dictGet_cons]
  | cons p d ih =>
      have hp : ¬ p.1 = k := by
        intro hk
        simp [dictContains_cons, hk] at h
      rw [List.cons_append, dictGet_cons, if_neg hp]
      apply ih
      simpa [dictContains_cons, hp] using h

theorem dictGet_dictSet_self (d : List (α × β)) (k : α) (v : β) :
    dictGet (dictSet d k v) k = some v := by
  unfold dictSet
  by_cases h : dictContains d k = true
  · rw [if_pos h]
    exact dictGet_map_overwrite d k v h
  · rw [if_neg h]
    exact dictGet_append_absent d k v (by simpa using h)

theorem dictGet_dictDelete_ne (d : List (α × β)) (k k' : α) (h : k' ≠ k) :
    dictGet (dictDelete d k) k' = dictGet d k' := by
  induction d with
  | nil => rfl
  | cons p d ih =>
      rw [dictDelete_cons, dictGet_cons]
      by_cases hp : p.1 = k
      · have hp' : ¬ p.1 = k' := by
          rw [hp]
          exact fun hk => h hk.symm
        rw [if_pos hp, if_neg hp', ih]
      · rw [if_neg hp, dictGet_cons, ih]

theorem dictContains_eq_isSome_dictGet (d : List (α × β)) (k : α) :
    dictContains d k = (dictGet d k).isSome := by
  induction d with
  | nil => rfl
  | cons p d ih =>
      rw [dictContains_cons, dictGet_cons]
      by_cases h : p.1 = k
      · simp [h]
      · simp [h, ih]

theorem dictContains_dictDelete_ne (d : List (α × β)) (k k' : α) (h : k' ≠ k) :
    dictContains (dictDelete d k) k' = dictContains d k' := by
  rw [dictContains_eq_isSome_dictGet, dictContains_eq_isSome_dictGet,
    dictGet_dictDelete_ne d k k' h]

theorem dictContains_of_mem_keys (d : List (α × β)) (k : α)
    (h : k ∈ d.map Prod.fst) : dictContains d k = true := by
  induction d with
  | nil => simp at h
  | cons p d ih =>
      rw [List.map_cons, List.mem_cons] at h
      rw [dictContains_cons]
      rcases h with h1 | h1
      · simp [h1]
      · simp [ih h1]

end PyDictLemmas

/-- C1: the claim says that after `removeWeatherFile(w)` succeeds no
soil-model-to-weather entry has value `w`, and in the spec scenario that
removing "wx1" leaves "loam" unmapped.  The code violates both parts: on
the scenario record the purge loop iterates the dict KEYS and unpacks the
four-character key "loam" into two names, raising ValueError and leaving
the mapping intact; and on a record whose key has exactly two characters
the call SUCCEEDS while the dangling entry with value "w" survives. -/
theorem C1_remove_weather_file_keeps_dangling_entry :
    ProjectMetadata.remove_weather_file c1_scenario_metadata "wx1"
      = .error .valueError
  ∧ ProjectMetadata.remove_weather_file c1_twochar_metadata "w"
      = .ok { c1_twochar_metadata with weather_files := [] }
  ∧ dictGet ({ c1_twochar_metadata with weather_files := [] }
        : ProjectMetadata).hydrus_to_weather "ab" = some "w" := by
  refine ⟨?_, ?_, ?_⟩ <;> decide

/-- C2: the claim says that after `removeSoilModel(M)` succeeds no
shape-to-soil-model entry targets `M` and no soil-model-to-weather entry
is keyed by `M`.  The code removes the id from the soil-model set only:
both cross-reference entries survive as dangling references. -/
theorem C2_remove_hydrus_model_keeps_dangling_references :
    ProjectMetadata.remove_hydrus_model c2_metadata "h"
      = .ok { c2_metadata with hydrus_models := [] }
  ∧ ({ c2_metadata with hydrus_models := [] } : ProjectMetadata).shapes_to_hydrus
      = [("s", MappingValue.hydrusId "h")]
  ∧ ({ c2_metadata with hydrus_models := [] } : ProjectMetadata).hydrus_to_weather
      = [("h", "w")] := by
  refine ⟨?_, ?_, ?_⟩ <;> decide

/-- C3 counterexample: `addHydrusModel` on a duplicate identifier stores
the model files in the artifact store BEFORE the duplicate check raises,
so the operation fails with a Duplicate error after a store mutation,
contradicting the claim that no store mutation occurs. -/
theorem C3_duplicate_hydrus_add_mutates_store :
    ProjectService.svc_add_hydrus_model c3_metadata "h"
      = ([StoreOp.addHydrusModelFiles "h"], .error .duplicateHydrusModel)
  ∧ (ProjectService.svc_add_hydrus_model c3_metadata "h").1 ≠ [] := by
  refine ⟨?_, ?_⟩ <;> decide

/-- C4: the claim says a vertex `(x, y)` of an H-by-W mask scales to
`x * gridWidth / W` and `y * gridHeight / H`, truncated.  The code swaps
the grid dimensions: it multiplies x by `gridHeight / W` and y by
`gridWidth / H`, so with gridWidth 4, gridHeight 2 on a 2-by-2 mask the
vertex (1, 1) becomes (1, 2) instead of the claimed (2, 1). -/
theorem C4_scale_polygon_swaps_grid_axes :
    scale_polygon 4 2 (2, 2) [(1, 1)] = [(1, 2)]
  ∧ scale_polygon_spec_formula 4 2 (2, 2) [(1, 1)] = [(2, 1)]
  ∧ scale_polygon 4 2 (2, 2) [(1, 1)]
      ≠ scale_polygon_spec_formula 4 2 (2, 2) [(1, 1)] := by
  have h1 : scale_polygon 4 2 (2, 2) [(1, 1)] = [(1, 2)] := by
    norm_num [scale_polygon, truncToInt]
  have h2 : scale_polygon_spec_formula 4 2 (2, 2) [(1, 1)] = [(2, 1)] := by
    norm_num [scale_polygon_spec_formula, truncToInt]
  refine ⟨h1, h2, ?_⟩
  rw [h1, h2]
  decide

/-- C3 (amended): for the add-weather, delete and mapping operations a
purely metadata-level invalid request raises the domain error before any
store operation, so the store trace is empty on failure; `addHydrusModel`
instead writes the model files to the store before its duplicate check,
so a duplicate identifier leaves the store mutated when the Duplicate
error is raised. -/
theorem C3_amended_store_isolation_on_domain_error :
    (∀ (m : ProjectMetadata) (h : HydrusID), h ∈ m.hydrus_models →
        ProjectService.svc_add_hydrus_model m h
          = ([StoreOp.addHydrusModelFiles h], .error .duplicateHydrusModel))
  ∧ (∀ (m : ProjectMetadata) (w : WeatherID) (e : ProjectError),
        (ProjectService.svc_add_weather_file m w).2 = .error e →
        (ProjectService.svc_add_weather_file m w).1 = [])
  ∧ (∀ (m : ProjectMetadata) (h : HydrusID) (e : ProjectError),
        (ProjectService.svc_delete_hydrus_model m h).2 = .error e →
        (ProjectService.svc_delete_hydrus_model m h).1 = [])
  ∧ (∀ (m : ProjectMetadata) (w : WeatherID) (e : ProjectError),
        (ProjectService.svc_delete_weather_file m w).2 = .error e →
        (ProjectService.svc_delete_weather_file m w).1 = [])
  ∧ (∀ (m : ProjectMetadata) (s : ShapeID) (e : ProjectError),
        (ProjectService.svc_delete_shape m s).2 = .error e →
        (ProjectService.svc_delete_shape m s).1 = [])
  ∧ (∀ (m : ProjectMetadata) (s : ShapeID) (h : HydrusID) (e : ProjectError),
        (ProjectService.svc_map_shape_to_hydrus m s h).2 = .error e →
        (ProjectService.svc_map_shape_to_hydrus m s h).1 = [])
  ∧ (∀ (m : ProjectMetadata) (s : ShapeID) (v : Rat) (e : ProjectError),
        (ProjectService.svc_map_shape_to_manual_value m s v).2 = .error e →
        (ProjectService.svc_map_shape_to_manual_value m s v).1 = [])
  ∧ (∀ (m : ProjectMetadata) (h : HydrusID) (w : WeatherID) (e : ProjectError),
        (ProjectService.svc_map_hydrus_to_weather_file m h w).2 = .error e →
        (ProjectService.svc_map_hydrus_to_weather_file m h w).1 = [])
  ∧ (∀ (m : ProjectMetadata) (s : ShapeID) (e : ProjectError),
        (ProjectService.svc_remove_shape_mapping m s).2 = .error e →
        (ProjectService.svc_remove_shape_mapping m s).1 = [])
  ∧ (∀ (m : ProjectMetadata) (h : HydrusID) (e : ProjectError),
        (ProjectService.svc_remove_weather_hydrus_mapping m h).2 = .error e →
        (ProjectService.svc_remove_weather_hydrus_mapping m h).1 = []) := by
  refine ⟨?_, ?_, ?_, ?_, ?_, ?_, ?_, ?_, ?_, ?_⟩
  · intro m h hmem
    simp [ProjectService.svc_add_hydrus_model, ProjectMetadata.add_hydrus_model, hmem]
  · intro m w e hE
    cases hop : m.add_weather_file w with
    | ok m1 => simp [ProjectService.svc_add_weather_file, hop] at hE
    | error e1 => simp [ProjectService.svc_add_weather_file, hop]
  · intro m h e hE
    cases hop : m.remove_hydrus_model h with
    | ok m1 => simp [ProjectService.svc_delete_hydrus_model, hop] at hE
    | error e1 => simp [ProjectService.svc_delete_hydrus_model, hop]
  · intro m w e hE
    cases hop : m.remove_weather_file w with
    | ok m1 => simp [ProjectService.svc_delete_weather_file, hop] at hE
    | error e1 => simp [ProjectService.svc_delete_weather_file, hop]
  · intro m s e hE
    cases hop : m.remove_shape_metadata s with
    | ok m1 => simp [ProjectService.svc_delete_shape, hop] at hE
    | error e1 => simp [ProjectService.svc_delete_shape, hop]
  · intro m s h e hE
    cases hop : m.map_shape_to_hydrus s h with
    | ok m1 => simp [ProjectService.svc_map_shape_to_hydrus, hop] at hE
    | error e1 => simp [ProjectService.svc_map_shape_to_hydrus, hop]
  · intro m s v e hE
    cases hop : m.map_shape_to_manual_value s v with
    | ok m1 => simp [ProjectService.svc_map_shape_to_manual_value, hop] at hE
    | error e1 => simp [ProjectService.svc_map_shape_to_manual_value, hop]
  · intro m h w e hE
    cases hop : m.map_hydrus_to_weather h w with
    | ok m1 => simp [ProjectService.svc_map_hydrus_to_weather_file, hop] at hE
    | error e1 => simp [ProjectService.svc_map_hydrus_to_weather_file, hop]
  · intro m s e hE
    cases hop : m.remove_shape_mapping s with
    | ok m1 => simp [ProjectService.svc_remove_shape_mapping, hop] at hE
    | error e1 => simp [ProjectService.svc_remove_shape_mapping, hop]
  · intro m h e hE
    cases hop : m.remove_hydrus_weather_mapping h with
    | ok m1 => simp [ProjectService.svc_remove_weather_hydrus_mapping, hop] at hE
    | error e1 => simp [ProjectService.svc_remove_weather_hydrus_mapping, hop]

/-- C3 (amended) on concrete inputs: the duplicate hydrus add mutates
the store, while failing variants of the other operations perform no
store operation. -/
theorem C3_amended_store_isolation_on_domain_error_check :
    ProjectService.svc_add_hydrus_model c3_metadata "h"
        = ([StoreOp.addHydrusModelFiles "h"], .error .duplicateHydrusModel)
  ∧ (ProjectService.svc_add_weather_file c3_metadata "w").1 = []
  ∧ (ProjectService.svc_delete_hydrus_model c3_metadata "nope").1 = []
  ∧ (ProjectService.svc_delete_weather_file c3_metadata "nope").1 = []
  ∧ (ProjectService.svc_delete_shape c3_metadata "s").1 = []
  ∧ (ProjectService.svc_map_shape_to_hydrus c3_metadata "s" "h").1 = []
  ∧ (ProjectService.svc_map_shape_to_manual_value c3_metadata "s" 5).1 = []
  ∧ (ProjectService.svc_map_hydrus_to_weather_file c3_metadata "nope" "w").1 = []
  ∧ (ProjectService.svc_remove_shape_mapping c3_metadata "s").1 = []
  ∧ (ProjectService.svc_remove_weather_hydrus_mapping c3_metadata "nope").1 = [] :=
  ⟨C3_amended_store_isolation_on_domain_error.1 c3_metadata "h" (by decide),
   C3_amended_store_isolation_on_domain_error.2.1 c3_metadata "w"
     ProjectError.duplicateWeatherFile (by decide),
   C3_amended_store_isolation_on_domain_error.2.2.1 c3_metadata "nope"
     ProjectError.unknownHydrusModel (by decide),
   C3_amended_store_isolation_on_domain_error.2.2.2.1 c3_metadata "nope"
     ProjectError.unknownWeatherFile (by decide),
   C3_amended_store_isolation_on_domain_error.2.2.2.2.1 c3_metadata "s"
     ProjectError.unknownShape (by decide),
   C3_amended_store_isolation_on_domain_error.2.2.2.2.2.1 c3_metadata "s" "h"
     ProjectError.unknownShape (by decide),
   C3_amended_store_isolation_on_domain_error.2.2.2.2.2.2.1 c3_metadata "s" 5
     ProjectError.unknownShape (by decide),
   C3_amended_store_isolation_on_domain_error.2.2.2.2.2.2.2.1 c3_metadata "nope" "w"
     ProjectError.unknownHydrusModel (by decide),
   C3_amended_store_isolation_on_domain_error.2.2.2.2.2.2.2.2.1 c3_metadata "s"
     ProjectError.unknownShape (by decide),
   C3_amended_store_isolation_on_domain_error.2.2.2.2.2.2.2.2.2 c3_metadata "nope"
     ProjectError.unknownHydrusModel (by decide)⟩

/-- C5: the claim says renaming a mapped shape carries the mapping to the
new id, deletes the old entries and writes the mask under the new id.
The code deletes the old mask, then re-applies the mapping via the
checked mapper BEFORE the new shape metadata exists, so the call raises
UnknownShape whenever the old shape had a mapping; and even on an
unmapped shape the rename performs no mask write under the new id (that
dao call is commented out in the source). -/
theorem C5_rename_mapped_shape_raises_unknown_shape :
    ProjectService.svc_save_or_update_shape c5_metadata "s1" "#000000" "s2"
      = ([StoreOp.deleteShapeMask "s1"], .error .unknownShape)
  ∧ ProjectService.svc_save_or_update_shape c5_unmapped_metadata "s1" "#000000" "s2"
      = ([StoreOp.deleteShapeMask "s1",
          StoreOp.saveMetadata
            { c5_unmapped_metadata with shapes := [("s2", "#000000")] }],
         .ok { c5_unmapped_metadata with shapes := [("s2", "#000000")] }) := by
  refine ⟨?_, ?_⟩ <;> decide

/-- C6: `mapShapeToSoilModel(S, M)` succeeds iff S is among the shapes
and M among the soil models; when either is absent it fails with the
corresponding UnknownShape / UnknownHydrusModel error, and the service
performs no store operation, so the persisted mapping table is unchanged;
on success it overwrites any existing mapping for S with M. -/
theorem C6_map_shape_to_soil_model_contract (m : ProjectMetadata)
    (s : ShapeID) (h : HydrusID) :
    ((∃ m1, m.map_shape_to_hydrus s h = .ok m1)
        ↔ (m.contains_shape s = true ∧ m.contains_hydrus_model h = true))
  ∧ (m.contains_shape s = false →
        m.map_shape_to_hydrus s h = .error .unknownShape
        ∧ (ProjectService.svc_map_shape_to_hydrus m s h).1 = [])
  ∧ (m.contains_shape s = true → m.contains_hydrus_model h = false →
        m.map_shape_to_hydrus s h = .error .unknownHydrusModel
        ∧ (ProjectService.svc_map_shape_to_hydrus m s h).1 = [])
  ∧ (m.contains_shape s = true → m.contains_hydrus_model h = true →
        m.map_shape_to_hydrus s h
          = .ok { m with shapes_to_hydrus :=
                    dictSet m.shapes_to_hydrus s (MappingValue.hydrusId h) }
        ∧ dictGet (dictSet m.shapes_to_hydrus s (MappingValue.hydrusId h)) s
            = some (MappingValue.hydrusId h)) := by
  by_cases hs : m.contains_shape s = true <;>
    by_cases hh : m.contains_hydrus_model h = true <;>
    simp [ProjectMetadata.map_shape_to_hydrus,
      ProjectService.svc_map_shape_to_hydrus, hs, hh, dictGet_dictSet_self]

/-- C6 on concrete inputs: success on present endpoints (overwriting the
previous manual mapping), UnknownShape on a missing shape, and
UnknownHydrusModel on a missing soil model with an empty store trace. -/
theorem C6_map_shape_to_soil_model_contract_check :
    (c6_metadata.map_shape_to_hydrus "s1" "h1"
        = .ok { c6_metadata with
                  shapes_to_hydrus := dictSet c6_metadata.shapes_to_hydrus "s1"
                    (MappingValue.hydrusId "h1") }
      ∧ dictGet (dictSet c6_metadata.shapes_to_hydrus "s1"
            (MappingValue.hydrusId "h1")) "s1"
          = some (MappingValue.hydrusId "h1"))
  ∧ (c6_metadata.map_shape_to_hydrus "missing" "h1" = .error .unknownShape
      ∧ (ProjectService.svc_map_shape_to_hydrus c6_metadata "missing" "h1").1 = [])
  ∧ (c6_metadata.map_shape_to_hydrus "s1" "missing" = .error .unknownHydrusModel
      ∧ (ProjectService.svc_map_shape_to_hydrus c6_metadata "s1" "missing").1 = []) :=
  ⟨(C6_map_shape_to_soil_model_contract c6_metadata "s1" "h1").2.2.2
      (by decide) (by decide),
   (C6_map_shape_to_soil_model_contract c6_metadata "missing" "h1").2.1 (by decide),
   (C6_map_shape_to_soil_model_contract c6_metadata "s1" "missing").2.2.1
      (by decide) (by decide)⟩

/-- C7: for every project, setting a groundwater model (after first
deleting the previous model's artifacts when one exists) stores the
inactive-cells raster as an ordinary shape under the fixed id
"inactive_modflow_cells", records it in the metadata shapes with the
fixed color "#999999", and stores each recharge raster under the recharge
namespace with ids rch_shape_1, rch_shape_2, ... numbered consecutively
from 1 in package-file order; the explicit operation list shows the
recharge masks never go through the ordinary shape namespace. -/
theorem C7_set_modflow_model_derived_state (m : ProjectMetadata)
    (modflow_id : String) (mm : ModflowMetadata) (sd : String)
    (rch : List Mask) (inactive : Mask) :
    ∃ m3,
      ProjectService.svc_set_modflow_model m modflow_id mm sd rch inactive
        = ((match m.modflow_metadata with
            | some old => [StoreOp.deleteModflowModelFiles old.modflow_id]
            | none => ([] : List StoreOp))
            ++ [StoreOp.addModflowModelFiles modflow_id,
                StoreOp.saveShapeMask "inactive_modflow_cells" inactive,
                StoreOp.saveMetadata m3]
            ++ rch.enum.map (fun p =>
                 StoreOp.saveRchShapeMask ("rch_shape_" ++ toString (p.1 + 1)) p.2),
           .ok m3)
      ∧ dictGet m3.shapes "inactive_modflow_cells" = some "#999999" := by
  refine ⟨{ (m.set_modflow_metadata mm).add_shape_metadata
              "inactive_modflow_cells" "#999999" with start_date := some sd },
          ?_, ?_⟩
  · cases hm : m.modflow_metadata with
    | none =>
        simp [ProjectService.svc_set_modflow_model,
          ProjectService.add_modflow_rch_shapes, hm]
    | some old =>
        simp [ProjectService.svc_set_modflow_model,
          ProjectService.add_modflow_rch_shapes, hm]
  · simp [ProjectMetadata.add_shape_metadata, ProjectMetadata.set_modflow_metadata,
      dictGet_dictSet_self]

/-- C8: adding a soil-column model id that is not yet present succeeds,
makes the id a member of the soil-model set, and a second add of the same
id fails with the Duplicate error. -/
theorem C8_add_soil_model_then_duplicate (m : ProjectMetadata)
    (h : HydrusID) (hnot : h ∉ m.hydrus_models) :
    ∃ m1, m.add_hydrus_model h = .ok m1
      ∧ h ∈ m1.hydrus_models
      ∧ m1.add_hydrus_model h = .error .duplicateHydrusModel := by
  refine ⟨{ m with hydrus_models := m.hydrus_models ++ [h] }, ?_, ?_, ?_⟩
  · simp [ProjectMetadata.add_hydrus_model, hnot]
  · simp
  · simp [ProjectMetadata.add_hydrus_model]

/-- C8 on a concrete empty project and the id "loam". -/
theorem C8_add_soil_model_then_duplicate_check :
    ∃ m1, c8_metadata.add_hydrus_model "loam" = .ok m1
      ∧ "loam" ∈ m1.hydrus_models
      ∧ m1.add_hydrus_model "loam" = .error .duplicateHydrusModel :=
  C8_add_soil_model_then_duplicate c8_metadata "loam" (by decide)

/-- C9: `addShapeMetadata` is total (its type carries no error case,
mirroring the plain dict assignment in the source) and always leaves the
shape mapped to the given color, silently overwriting an existing entry,
whereas the soil-model and weather-file add operations reject duplicate
identifiers with Duplicate errors. -/
theorem C9_add_shape_metadata_always_overwrites (m : ProjectMetadata)
    (s : ShapeID) (c : ShapeColor) :
    dictGet (m.add_shape_metadata s c).shapes s = some c
  ∧ (∀ h, h ∈ m.hydrus_models →
        m.add_hydrus_model h = .error .duplicateHydrusModel)
  ∧ (∀ w, w ∈ m.weather_files →
        m.add_weather_file w = .error .duplicateWeatherFile) := by
  refine ⟨?_, ?_, ?_⟩
  · simpa [ProjectMetadata.add_shape_metadata] using
      dictGet_dictSet_self m.shapes s c
  · intro h hmem
    simp [ProjectMetadata.add_hydrus_model, hmem]
  · intro w hmem
    simp [ProjectMetadata.add_weather_file, hmem]

/-- C9 on a concrete record where the shape "s" is already present with
another color and the added ids duplicate existing ones. -/
theorem C9_add_shape_metadata_always_overwrites_check :
    dictGet (c9_metadata.add_shape_metadata "s" "#bbbbbb").shapes "s" = some "#bbbbbb"
  ∧ c9_metadata.add_hydrus_model "h" = .error .duplicateHydrusModel
  ∧ c9_metadata.add_weather_file "w" = .error .duplicateWeatherFile :=
  ⟨(C9_add_shape_metadata_always_overwrites c9_metadata "s" "#bbbbbb").1,
   (C9_add_shape_metadata_always_overwrites c9_metadata "s" "#bbbbbb").2.1
      "h" (by decide),
   (C9_add_shape_metadata_always_overwrites c9_metadata "s" "#bbbbbb").2.2
      "w" (by decide)⟩

/-- C10: the claim says deleting the groundwater model deletes every
shape (user-drawn included) and leaves both the shapes map and the
shape-to-soil-model map empty afterwards.  The code does wipe every
shape mask and persist the wiped record, but then crashes:
project_service.delete_modflow_model calls project_dao.delete_rch_shapes,
a method ProjectDao does not define, so the call raises AttributeError
right after the wipe; the groundwater model artifacts are never deleted
and the record with its modflow reference cleared is never saved (the
last persisted record still carries the modflow metadata). -/
theorem C10_delete_modflow_model_crashes_after_wipe :
    ProjectService.svc_delete_modflow_model c10_metadata
      = ([StoreOp.deleteShapeMask "user_shape",
          StoreOp.deleteShapeMask "inactive_modflow_cells",
          StoreOp.saveMetadata
            { c10_metadata with shapes := [], shapes_to_hydrus := [] }],
         .error .attributeError)
  ∧ ({ c10_metadata with shapes := [], shapes_to_hydrus := [] }
        : ProjectMetadata).modflow_metadata = some { modflow_id := "mf" } := by
  refine ⟨?_, ?_⟩ <;> decide

end HmseProjects
